import Mathlib

/-
Shallow embedding of src/charm.py (FastAPIDemoCharm, a Juju charm managing a
FastAPI workload through Pebble).

The charm is event-driven glue: handlers read the Juju config, the database
relation data and the Pebble plan, and mutate unit status, opened ports, the
Pebble plan and peer relation data.  We model the observable world of one unit
as an explicit record `CharmState` and each handler as a function on it.

Python exceptions that escape a handler are modelled with `Except Exc _`:
`fetch_postgres_relation_data` raises `SystemExit` after setting Waiting
status (modelled as an `Exc.sysExit` value carrying the mutated state), and
malformed relation data would raise KeyError and ValueError, carried as
`Exc.keyError` and `Exc.valueError`.

External collaborators are modelled as state fields:
  - `can_connect`   : reachability of Pebble in the workload container;
  - `plan_services` : the services section of the current Pebble plan (a
                      Pebble plan retains only services; layer summary and
                      description are not part of a plan document);
  - `db_relations`  : the data bags returned by
                      `DatabaseRequires.fetch_relation_data().values()`,
                      each bag a string-to-string dict;
  - `version_resp`  : the body of `GET /version` on the workload, `none`
                      when the HTTP request fails;
  - `peer_relation` : `none` when the peer relation does not exist, else the
                      application data bag, JSON values stored per key
                      (serialization by `json.dumps`/`json.loads` is modelled
                      as the identity on parsed values).
-/

set_option autoImplicit false

namespace CharmDemo

/-- Unit status values used by the charm (ops.model statuses). -/
inductive Status where
  | maintenance (msg : String)
  | waiting (msg : String)
  | blocked (msg : String)
  | active
  deriving DecidableEq, Repr

/-- Environment mapping built by `app_environment`: four fixed keys with
optional string values (None when the relation data lacks the key). -/
structure AppEnv where
  DEMO_SERVER_DB_HOST : Option String
  DEMO_SERVER_DB_PORT : Option String
  DEMO_SERVER_DB_USER : Option String
  DEMO_SERVER_DB_PASSWORD : Option String
  deriving DecidableEq, Repr

/-- One service entry of a Pebble layer, as built in `_pebble_layer`. -/
structure ServiceDef where
  override : String
  summary : String
  command : String
  startup : String
  environment : AppEnv
  deriving DecidableEq, Repr

/-- The full Pebble layer document built by `_pebble_layer`:
summary, description and a services dict. -/
structure LayerDoc where
  summary : String
  description : String
  services : List (String × ServiceDef)
  deriving DecidableEq, Repr

/-- Parsed JSON values, as stored in the peer relation data bag
(`json.dumps` on write, `json.loads` on read; we model the round trip as
the identity on these parsed values). -/
inductive Json where
  | null
  | num (n : Int)
  | str (s : String)
  | obj (fields : List (String × Json))

/-- The dict returned by `fetch_postgres_relation_data` on success. -/
structure DbData where
  db_host : String
  db_port : String
  db_username : String
  db_password : String
  deriving DecidableEq, Repr

/-- Observable state of one charm unit together with its collaborators. -/
structure CharmState where
  server_port : Int
  can_connect : Bool
  service_running : Bool
  version_resp : Option String
  plan_services : List (String × ServiceDef)
  restarts : Nat
  status : Status
  workload_version : Option String
  opened_ports : List Int
  db_relations : List (List (String × String))
  peer_relation : Option (List (String × Json))

/-- Python exceptions escaping a handler, carrying the state at raise time. -/
inductive Exc where
  | sysExit (st : CharmState)
  | keyError (st : CharmState)
  | valueError (st : CharmState)

/-- State carried by an escaped exception. -/
def Exc.state : Exc → CharmState
  | .sysExit st => st
  | .keyError st => st
  | .valueError st => st

/-- Final state of a handler run, whether it returned or raised. -/
def finalState : Except Exc CharmState → CharmState
  | .ok st => st
  | .error e => e.state

/-- Python dict lookup `bag.get(k)` on a string-to-string dict. -/
def dictGet : List (String × String) → String → Option String
  | [], _ => none
  | (k1, v1) :: rest, k => if k1 = k then some v1 else dictGet rest k

/-- Python dict lookup on a string-to-JSON dict. -/
def dictGetJson : List (String × Json) → String → Option Json
  | [], _ => none
  | (k1, v1) :: rest, k => if k1 = k then some v1 else dictGetJson rest k

/-- Python dict assignment `bag[k] = v` on a string-to-JSON dict. -/
def dictSetJson : List (String × Json) → String → Json → List (String × Json)
  | [], k, v => [(k, v)]
  | (k1, v1) :: rest, k, v =>
    if k1 = k then (k, v) :: rest else (k1, v1) :: dictSetJson rest k v

/-- Grouping pass of Python `str.split(sep)` for a one-character separator,
over the character list of the string. -/
def splitAux (c : Char) : List Char → List (List Char)
  | [] => [[]]
  | x :: xs =>
    match splitAux c xs with
    | [] => [[]]
    | g :: gs => if x = c then [] :: g :: gs else (x :: g) :: gs

/-- Python `s.split(c)` for a one-character separator: `"".split(c) = [""]`,
adjacent separators produce empty pieces. -/
def pySplit (s : String) (c : Char) : List String :=
  (splitAux c s.data).map (fun l => String.mk l)

/-- The fixed Pebble service name, `self.pebble_service_name`. -/
def pebble_service_name : String := "fastapi-service"

/-- Failure modes of the loop in `fetch_postgres_relation_data`: no nonempty
data bag (ends in SystemExit), a missing dict key (KeyError), or an endpoints
string that does not unpack into exactly host and port (ValueError). -/
inductive FetchErr where
  | noData
  | keyErr
  | valErr
  deriving DecidableEq, Repr

/-- State-independent part of the loop in `fetch_postgres_relation_data`:
walk the relation data bags, skip empty ones (`if not data: continue`), and
parse the first nonempty one into the `db_data` dict. -/
def fetch_core : List (List (String × String)) → Except FetchErr DbData
  | [] => .error .noData
  | bag :: rest =>
    if bag = [] then fetch_core rest
    else
      match dictGet bag "endpoints" with
      | none => .error .keyErr
      | some ep =>
        match pySplit ep ':' with
        | [host, port] =>
          match dictGet bag "username", dictGet bag "password" with
          | some u, some pw =>
            .ok { db_host := host, db_port := port, db_username := u, db_password := pw }
          | _, _ => .error .keyErr
        | _ => .error .valErr

/-- `fetch_postgres_relation_data`: first nonempty relation data bag parsed
into `DbData`.  When no bag holds data, the method sets Waiting status and
raises SystemExit; malformed data raises KeyError or ValueError with the
state untouched. -/
def fetch_postgres_relation_data (st : CharmState) : Except Exc DbData :=
  match fetch_core st.db_relations with
  | .ok d => .ok d
  | .error .noData =>
    .error (.sysExit { st with status := .waiting "Waiting for database relation" })
  | .error .keyErr => .error (.keyError st)
  | .error .valErr => .error (.valueError st)

/-- Environment dict built by `app_environment` from a fetched `db_data`
dict: that dict always carries all four keys, so each `.get(key, None)`
yields a present value. -/
def env_of (d : DbData) : AppEnv :=
  { DEMO_SERVER_DB_HOST := some d.db_host
    DEMO_SERVER_DB_PORT := some d.db_port
    DEMO_SERVER_DB_USER := some d.db_username
    DEMO_SERVER_DB_PASSWORD := some d.db_password }

/-- `app_environment` property: env var dict from the relation data. -/
def app_environment (st : CharmState) : Except Exc AppEnv :=
  match fetch_postgres_relation_data st with
  | .ok d => .ok (env_of d)
  | .error e => .error e

/-- `_pebble_layer` property: the layer document with the uvicorn command
built from the configured port and the environment from the relation data. -/
def pebble_layer (st : CharmState) : Except Exc LayerDoc :=
  let command := String.intercalate " "
    ["uvicorn", "api_demo_server.app:app", "--host=0.0.0.0",
     "--port=" ++ toString st.server_port]
  match app_environment st with
  | .error e => .error e
  | .ok env =>
    .ok { summary := "FastAPI demo service"
          description := "pebble config layer for FastAPI demo server"
          services := [(pebble_service_name,
            { override := "replace"
              summary := "fastapi demo"
              command := command
              startup := "enabled"
              environment := env })] }

/-- The layer document `_pebble_layer` yields when the relation data fetch
succeeds with `d`; `pebble_layer_ok` below ties it to `pebble_layer`. -/
def desired_layer (st : CharmState) (d : DbData) : LayerDoc :=
  { summary := "FastAPI demo service"
    description := "pebble config layer for FastAPI demo server"
    services := [(pebble_service_name,
      { override := "replace"
        summary := "fastapi demo"
        command := String.intercalate " "
          ["uvicorn", "api_demo_server.app:app", "--host=0.0.0.0",
           "--port=" ++ toString st.server_port]
        startup := "enabled"
        environment := env_of d })] }

/-- `version` property: the workload-reported version, empty string when the
container is unreachable, the service is not known to Pebble, or the HTTP
request fails (exception logged and swallowed). -/
def version (st : CharmState) : String :=
  if st.can_connect && st.service_running then
    match st.version_resp with
    | some v => v
    | none => ""
  else ""

/-- `_update_layer_and_restart`: set Maintenance status; when Pebble is
reachable, compare the services section of the current plan with the newly
computed layer and, on difference, add the layer and restart the service;
then report the workload version and set Active.  When Pebble is
unreachable, set Waiting and do nothing else. -/
def update_layer_and_restart (st : CharmState) : Except Exc CharmState :=
  let st1 := { st with status := .maintenance "Assembling pod spec" }
  if st1.can_connect then
    match pebble_layer st1 with
    | .error e => .error e
    | .ok newLayer =>
      let st2 :=
        if st1.plan_services ≠ newLayer.services then
          { st1 with plan_services := newLayer.services
                     restarts := st1.restarts + 1
                     service_running := true }
        else st1
      .ok { st2 with workload_version := some (version st2), status := .active }
  else
    .ok { st1 with status := .waiting "Waiting for Pebble in workload container" }

/-- `_handle_ports`: `unit.set_ports(port)` replaces the opened-port set with
exactly the configured port. -/
def handle_ports (st : CharmState) : CharmState :=
  { st with opened_ports := [st.server_port] }

/-- `_on_config_changed`: reject port 22 with Blocked status and stop;
otherwise open the port and reconcile. -/
def on_config_changed (st : CharmState) : Except Exc CharmState :=
  if st.server_port = 22 then
    .ok { st with status := .blocked "Invalid port number, 22 is reserved for SSH" }
  else
    update_layer_and_restart (handle_ports st)

/-- Outcome of the get-db-info action: the state after the handler, the
results document passed to `event.set_results` (empty when no call was
reached), and whether an exception escaped the handler. -/
structure ActionOutcome where
  state : CharmState
  results : List (String × Option String)
  aborted : Bool

/-- `_on_get_db_info_action`: fetch the relation data and return host and
port, plus username and password when `show-password` is set.  On SystemExit
the handler substitutes the fixed result document and re-raises; the
`finally` block always delivers the output.  On any other exception the
`output` variable is unbound, so the `finally` block itself fails and no
results are set. -/
def on_get_db_info_action (st : CharmState) (show_password : Bool) : ActionOutcome :=
  match fetch_postgres_relation_data st with
  | .ok db_data =>
    let output := [("db-host", some db_data.db_host), ("db-port", some db_data.db_port)]
    let output := if show_password then
        output ++ [("db-username", some db_data.db_username),
                   ("db-password", some db_data.db_password)]
      else output
    { state := st, results := output, aborted := false }
  | .error (.sysExit st2) =>
    { state := st2, results := [("result", some "No database connected")], aborted := true }
  | .error e =>
    { state := e.state, results := [], aborted := true }

/-- `get_peer_data`: empty dict when the peer relation does not exist or the
key is absent, else the parsed stored value. -/
def get_peer_data (st : CharmState) (key : String) : Json :=
  match st.peer_relation with
  | none => .obj []
  | some bag =>
    match dictGetJson bag key with
    | some v => v
    | none => .obj []

/-- `set_peer_data`: `self.peers.data[self.app][key] = json.dumps(data)`.
Dereferences the peer relation without a guard: when the relation does not
exist, `self.peers` is None and the attribute access raises (modelled as
`none`). -/
def set_peer_data (st : CharmState) (key : String) (data : Json) : Option CharmState :=
  match st.peer_relation with
  | none => none
  | some bag => some { st with peer_relation := some (dictSetJson bag key data) }

/-- The `started_counter` read in `_count`: `unit_stats.get("started_counter", 0)`,
defaulting to 0 when the key is absent. -/
def started_counter_of (j : Json) : Int :=
  match j with
  | .obj fields =>
    match dictGetJson fields "started_counter" with
    | some (.num n) => n
    | _ => 0
  | _ => 0

/-- `_count` (start hook): read the peer counter, write it back incremented. -/
def count (st : CharmState) : Option CharmState :=
  let unit_stats := get_peer_data st "unit_stats"
  let counter := started_counter_of unit_stats
  set_peer_data st "unit_stats" (.obj [("started_counter", .num (counter + 1))])

/-- Full-document view of the currently active Pebble plan: a plan document
carries only a services section; it has no summary or description keys. -/
structure FullDoc where
  summary : Option String
  description : Option String
  services : List (String × ServiceDef)
  deriving DecidableEq, Repr

/-- The currently active plan taken in its entirety, as a full document. -/
def plan_full_doc (st : CharmState) : FullDoc :=
  { summary := none, description := none, services := st.plan_services }

/-- A computed layer taken in its entirety, as a full document. -/
def layer_full_doc (L : LayerDoc) : FullDoc :=
  { summary := some L.summary, description := some L.description, services := L.services }

/-- Spec comparison, following the claim wording for the apply-on-change
decision: the currently active document, taken in its entirety (summary,
description, and services), differs structurally from the newly computed
one. -/
def full_document_differs (st : CharmState) (L : LayerDoc) : Prop :=
  plan_full_doc st ≠ layer_full_doc L

instance (st : CharmState) (L : LayerDoc) : Decidable (full_document_differs st L) := by
  unfold full_document_differs
  infer_instance

/-! Concrete states used to exercise the handlers. -/

/-- A unit with default config (port 8000), a reachable container, an empty
Pebble plan, no database relation and no peer relation. -/
def baseState : CharmState :=
  { server_port := 8000, can_connect := true, service_running := false,
    version_resp := none, plan_services := [], restarts := 0,
    status := Status.active, workload_version := none, opened_ports := [],
    db_relations := [], peer_relation := none }

/-- Like `baseState`, with one populated database relation data bag. -/
def dbState : CharmState :=
  { baseState with db_relations :=
      [[("endpoints", "db.host:5432"), ("username", "alice"), ("password", "secret")]] }

/-- The layer `_pebble_layer` computes on `dbState`. -/
def layer0 : LayerDoc :=
  { summary := "FastAPI demo service"
    description := "pebble config layer for FastAPI demo server"
    services := [("fastapi-service",
      { override := "replace"
        summary := "fastapi demo"
        command := "uvicorn api_demo_server.app:app --host=0.0.0.0 --port=8000"
        startup := "enabled"
        environment := { DEMO_SERVER_DB_HOST := some "db.host"
                         DEMO_SERVER_DB_PORT := some "5432"
                         DEMO_SERVER_DB_USER := some "alice"
                         DEMO_SERVER_DB_PASSWORD := some "secret" } })] }

/-- Like `dbState`, with the active plan already holding the services that
`_pebble_layer` computes, so reconciliation finds nothing to change. -/
def planUpToDateState : CharmState := { dbState with plan_services := layer0.services }

/-- A unit with port 1234 configured and Pebble unreachable. -/
def unreachableState : CharmState :=
  { baseState with server_port := 1234, can_connect := false }

/-! Helper lemmas shared by the claim theorems. -/

/-- When every relation data bag is empty, the fetch loop exhausts the bags
and reports that no data is available. -/
theorem fetch_core_all_empty (bags : List (List (String × String)))
    (h : ∀ b ∈ bags, b = []) : fetch_core bags = .error .noData := by
  induction bags with
  | nil => rfl
  | cons b rest ih =>
    have hb : b = [] := h b (by simp)
    simp only [fetch_core, if_pos hb]
    exact ih fun x hx => h x (by simp [hx])

/-- When the relation data parses to `d`, `_pebble_layer` yields exactly the
desired layer document. -/
theorem pebble_layer_ok (st : CharmState) (d : DbData)
    (hd : fetch_core st.db_relations = .ok d) :
    pebble_layer st = .ok (desired_layer st d) := by
  simp [pebble_layer, app_environment, fetch_postgres_relation_data, hd, desired_layer]

/-- C1 counterexample: on a workload-ready notification with default port
8000, a reachable container and no database relation, reconciliation does
not reach Active: `app_environment` aborts with SystemExit after setting
Waiting status, so no service definition is produced at all. -/
theorem c1_no_db_active_counterexample :
    update_layer_and_restart baseState =
      .error (.sysExit { baseState with status := .waiting "Waiting for database relation" }) ∧
    (finalState (update_layer_and_restart baseState)).status ≠ Status.active := by
  exact ⟨rfl, by decide⟩

/-- C1 (amended): on a workload-ready notification with a reachable
container and no database relation, reconciliation aborts: unit status
becomes Waiting for the database relation, the SystemExit abort propagates,
and nothing else changes (no layer applied, no restart, no workload version
reported, the plan untouched). -/
theorem c1_reconcile_no_db_relation_aborts (st : CharmState)
    (hc : st.can_connect = true) (hdb : st.db_relations = []) :
    update_layer_and_restart st =
      .error (.sysExit { st with status := .waiting "Waiting for database relation" }) := by
  simp [update_layer_and_restart, pebble_layer, app_environment,
        fetch_postgres_relation_data, fetch_core, hc, hdb]

/-- C1 witness: the amended statement evaluated at `baseState`. -/
theorem c1_reconcile_no_db_relation_aborts_witness :
    update_layer_and_restart baseState =
      .error (.sysExit { baseState with status := .waiting "Waiting for database relation" }) :=
  c1_reconcile_no_db_relation_aborts baseState rfl rfl

/-- C2 counterexample: with no database relation, the get-db-info action
sets the result string "No database connected" (capital N), for either value
of show-password, not the string "no database connected" the claim states. -/
theorem c2_result_string_counterexample :
    (on_get_db_info_action baseState false).results =
      [("result", some "No database connected")] ∧
    (on_get_db_info_action baseState true).results =
      [("result", some "No database connected")] ∧
    ("No database connected" : String) ≠ "no database connected" := by
  exact ⟨rfl, rfl, by decide⟩

/-- C2 (amended): whenever no database relation data is available, and for
both values of show-password, the action sets exactly one result, the single
document with "result" mapped to "No database connected", and still
re-signals the abort to the caller after setting it. -/
theorem c2_get_db_info_no_db (st : CharmState) (show_password : Bool)
    (h : ∀ b ∈ st.db_relations, b = []) :
    on_get_db_info_action st show_password =
      { state := { st with status := .waiting "Waiting for database relation" }
        results := [("result", some "No database connected")]
        aborted := true } := by
  simp [on_get_db_info_action, fetch_postgres_relation_data,
        fetch_core_all_empty st.db_relations h]

/-- C2 witness: the amended statement evaluated at `baseState` with
show-password set. -/
theorem c2_get_db_info_no_db_witness :
    on_get_db_info_action baseState true =
      { state := { baseState with status := .waiting "Waiting for database relation" }
        results := [("result", some "No database connected")]
        aborted := true } :=
  c2_get_db_info_no_db baseState true (by simp [baseState])

/-- C5: on a configuration-changed notification with port 22, the unit goes
Blocked with exactly the reserved-port message and nothing else happens: the
returned state differs from the input only in its status, so the port is not
opened, no layer is applied and the process is not restarted. -/
theorem c5_port22_blocked (st : CharmState) (h : st.server_port = 22) :
    on_config_changed st =
      .ok { st with status := .blocked "Invalid port number, 22 is reserved for SSH" } := by
  simp [on_config_changed, h]

/-- C5 witness: the statement evaluated at `baseState` reconfigured to 22. -/
theorem c5_port22_blocked_witness :
    on_config_changed { baseState with server_port := 22 } =
      .ok { baseState with
            server_port := 22,
            status := .blocked "Invalid port number, 22 is reserved for SSH" } :=
  c5_port22_blocked { baseState with server_port := 22 } rfl

/-- C7: whenever reconciliation runs while Pebble is unreachable, the unit
status is set to Waiting and nothing else is done: the returned state
differs from the input only in its status, so no layer is added, the process
is not restarted and no workload version is reported. -/
theorem c7_unreachable_waiting (st : CharmState) (h : st.can_connect = false) :
    update_layer_and_restart st =
      .ok { st with status := .waiting "Waiting for Pebble in workload container" } := by
  simp [update_layer_and_restart, h]

/-- C7 witness: the statement evaluated at `unreachableState`. -/
theorem c7_unreachable_waiting_witness :
    update_layer_and_restart unreachableState =
      .ok { unreachableState with
            status := .waiting "Waiting for Pebble in workload container" } :=
  c7_unreachable_waiting unreachableState rfl

/-- C9: reading and writing peer state are asymmetric when the peer relation
does not exist: `get_peer_data` returns the empty mapping, while
`set_peer_data` dereferences the missing relation and raises, so the start
hook `_count` raises instead of recording the counter. -/
theorem c9_peer_data_asymmetry (st : CharmState) (key : String) (data : Json)
    (h : st.peer_relation = none) :
    get_peer_data st key = .obj [] ∧
    set_peer_data st key data = none ∧
    count st = none := by
  refine ⟨?_, ?_, ?_⟩ <;> simp [get_peer_data, set_peer_data, count, h]

/-- C9 witness: the statement evaluated at `baseState`, which has no peer
relation. -/
theorem c9_peer_data_asymmetry_witness :
    get_peer_data baseState "unit_stats" = .obj [] ∧
    set_peer_data baseState "unit_stats" (.num 0) = none ∧
    count baseState = none :=
  c9_peer_data_asymmetry baseState "unit_stats" (.num 0) rfl

/-- Characterization of a successful reconciliation: with Pebble reachable
and relation data parsing to `d`, the handler returns Active, applying the
layer and restarting exactly when the services section of the plan differs
from the computed one. -/
theorem update_ok_char (st : CharmState) (d : DbData)
    (hc : st.can_connect = true) (hd : fetch_core st.db_relations = .ok d) :
    update_layer_and_restart st =
      .ok (if st.plan_services = (desired_layer st d).services
           then { st with status := .active, workload_version := some (version st) }
           else { st with
                  plan_services := (desired_layer st d).services,
                  restarts := st.restarts + 1, service_running := true,
                  status := .active,
                  workload_version := some (version { st with service_running := true }) }) := by
  have hcc : ({ st with status := Status.maintenance "Assembling pod spec" } : CharmState).can_connect = true := hc
  have hL : pebble_layer { st with status := Status.maintenance "Assembling pod spec" } =
      .ok (desired_layer st d) := pebble_layer_ok _ d hd
  simp only [update_layer_and_restart, hcc, if_true, hL]
  by_cases hps : st.plan_services = (desired_layer st d).services
  · simp [hps, version, hc]
  · simp [hps, version, hc]

/-- Reconciliation when the plan already matches the computed layer: Active
status and a workload version report, but no layer application and no
restart. -/
theorem update_no_change (st : CharmState) (d : DbData)
    (hc : st.can_connect = true) (hd : fetch_core st.db_relations = .ok d)
    (hps : st.plan_services = (desired_layer st d).services) :
    update_layer_and_restart st =
      .ok { st with status := .active, workload_version := some (version st) } := by
  have h := update_ok_char st d hc hd
  rwa [if_pos hps] at h

/-- C3: idempotence of reconciliation.  When the plan differs from the
computed definition, the first reconciliation restarts the process exactly
once, and a second reconciliation of the unchanged definition restarts it
zero further times. -/
theorem c3_reconcile_idempotent (st : CharmState) (d : DbData)
    (hc : st.can_connect = true) (hd : fetch_core st.db_relations = .ok d)
    (hne : st.plan_services ≠ (desired_layer st d).services) :
    ∃ st1 st2,
      update_layer_and_restart st = .ok st1 ∧
      st1.restarts = st.restarts + 1 ∧
      update_layer_and_restart st1 = .ok st2 ∧
      st2.restarts = st1.restarts := by
  have h1 := update_ok_char st d hc hd
  rw [if_neg hne] at h1
  exact ⟨_, _, h1, rfl, update_no_change _ d hc hd rfl, rfl⟩

/-- C3 witness: the statement evaluated at `dbState`, whose empty plan
differs from the computed definition. -/
theorem c3_reconcile_idempotent_witness :
    ∃ st1 st2,
      update_layer_and_restart dbState = .ok st1 ∧
      st1.restarts = dbState.restarts + 1 ∧
      update_layer_and_restart st1 = .ok st2 ∧
      st2.restarts = st1.restarts :=
  c3_reconcile_idempotent dbState
    { db_host := "db.host", db_port := "5432", db_username := "alice", db_password := "secret" }
    rfl rfl (by decide)

/-- C4 counterexample: at `planUpToDateState` the active plan document taken
in its entirety differs structurally from the newly computed document (a
plan has no summary or description keys), yet reconciliation does not
restart the process, because the code compares only the services sections. -/
theorem c4_full_document_counterexample :
    pebble_layer planUpToDateState = .ok layer0 ∧
    full_document_differs planUpToDateState layer0 ∧
    update_layer_and_restart planUpToDateState =
      .ok { planUpToDateState with workload_version := some "", status := .active } ∧
    (finalState (update_layer_and_restart planUpToDateState)).restarts =
      planUpToDateState.restarts := by
  exact ⟨rfl, by decide, rfl, rfl⟩

/-- C4 (amended): the apply-on-change decision is structural equality of the
services sections alone: the process is restarted if and only if the
services section of the active plan differs from the services section of the
newly computed layer. -/
theorem c4_services_equality_decides (st : CharmState) (d : DbData)
    (hc : st.can_connect = true) (hd : fetch_core st.db_relations = .ok d) :
    ∃ st1, update_layer_and_restart st = .ok st1 ∧
      (st.plan_services = (desired_layer st d).services → st1.restarts = st.restarts) ∧
      (st.plan_services ≠ (desired_layer st d).services → st1.restarts = st.restarts + 1) := by
  have h := update_ok_char st d hc hd
  by_cases hps : st.plan_services = (desired_layer st d).services
  · rw [if_pos hps] at h
    exact ⟨_, h, fun _ => rfl, fun hn => absurd hps hn⟩
  · rw [if_neg hps] at h
    exact ⟨_, h, fun he => absurd he hps, fun _ => rfl⟩

/-- C4 witness: the amended statement evaluated at `planUpToDateState`. -/
theorem c4_services_equality_decides_witness :
    ∃ st1, update_layer_and_restart planUpToDateState = .ok st1 ∧
      (planUpToDateState.plan_services =
          (desired_layer planUpToDateState
            { db_host := "db.host", db_port := "5432",
              db_username := "alice", db_password := "secret" }).services →
        st1.restarts = planUpToDateState.restarts) ∧
      (planUpToDateState.plan_services ≠
          (desired_layer planUpToDateState
            { db_host := "db.host", db_port := "5432",
              db_username := "alice", db_password := "secret" }).services →
        st1.restarts = planUpToDateState.restarts + 1) :=
  c4_services_equality_decides planUpToDateState
    { db_host := "db.host", db_port := "5432", db_username := "alice", db_password := "secret" }
    rfl rfl

/-- C6 counterexample: with port 1234 configured, in range and not 22, but
Pebble unreachable, handling configuration-changed opens the port yet leaves
the unit Waiting, not Active. -/
theorem c6_unreachable_counterexample :
    unreachableState.server_port = 1234 ∧
    on_config_changed unreachableState =
      .ok { unreachableState with
            opened_ports := [1234],
            status := .waiting "Waiting for Pebble in workload container" } ∧
    Status.waiting "Waiting for Pebble in workload container" ≠ Status.active := by
  exact ⟨rfl, rfl, by decide⟩

/-- C6 (amended): for every configured port p other than 22 in [1,65535],
when Pebble is reachable and database relation data is available, handling
configuration-changed yields Active status and the opened-port set contains
p. -/
theorem c6_config_changed_active (st : CharmState) (d : DbData)
    (h22 : st.server_port ≠ 22)
    (_h1 : 1 ≤ st.server_port) (_h2 : st.server_port ≤ 65535)
    (hc : st.can_connect = true) (hd : fetch_core st.db_relations = .ok d) :
    ∃ st1, on_config_changed st = .ok st1 ∧
      st1.status = .active ∧ st1.opened_ports = [st.server_port] := by
  have hph : (handle_ports st).can_connect = true := hc
  have hdh : fetch_core (handle_ports st).db_relations = .ok d := hd
  have h := update_ok_char (handle_ports st) d hph hdh
  simp only [on_config_changed, if_neg h22]
  by_cases hps :
      (handle_ports st).plan_services = (desired_layer (handle_ports st) d).services
  · rw [h, if_pos hps]
    exact ⟨_, rfl, rfl, rfl⟩
  · rw [h, if_neg hps]
    exact ⟨_, rfl, rfl, rfl⟩

/-- C6 witness: the amended statement evaluated at `dbState` (port 8000). -/
theorem c6_config_changed_active_witness :
    ∃ st1, on_config_changed dbState = .ok st1 ∧
      st1.status = .active ∧ st1.opened_ports = [dbState.server_port] :=
  c6_config_changed_active dbState
    { db_host := "db.host", db_port := "5432", db_username := "alice", db_password := "secret" }
    (by decide) (by decide) (by decide) rfl rfl

/-- Lookup after store on a string-keyed dict returns the stored value. -/
theorem dictGetJson_dictSetJson (bag : List (String × Json)) (k : String) (v : Json) :
    dictGetJson (dictSetJson bag k v) k = some v := by
  induction bag with
  | nil => simp [dictSetJson, dictGetJson]
  | cons p rest ih =>
    obtain ⟨k1, v1⟩ := p
    by_cases hk : k1 = k
    · simp [dictSetJson, hk, dictGetJson]
    · simp [dictSetJson, hk, dictGetJson, ih]

/-- C8: when the peer relation exists, every unit-start notification
overwrites the peer counter stored under "unit_stats" with its successor:
the stored document becomes started_counter mapped to N + 1, where N is the
previously stored counter, read as 0 when the key or counter is absent. -/
theorem c8_start_increments (st : CharmState) (bag : List (String × Json))
    (h : st.peer_relation = some bag) :
    ∃ st1, count st = some st1 ∧
      get_peer_data st1 "unit_stats" =
        .obj [("started_counter",
               .num (started_counter_of (get_peer_data st "unit_stats") + 1))] := by
  refine ⟨{ st with peer_relation := some (dictSetJson bag "unit_stats"
      (.obj [("started_counter",
              .num (started_counter_of (get_peer_data st "unit_stats") + 1))])) }, ?_, ?_⟩
  · simp [count, set_peer_data, h]
  · simp [get_peer_data, dictGetJson_dictSetJson]

/-- C8 witness: the statement evaluated at `baseState` with an empty peer
data bag, where the absent counter reads as 0. -/
theorem c8_start_increments_witness :
    ∃ st1, count { baseState with peer_relation := some [] } = some st1 ∧
      get_peer_data st1 "unit_stats" =
        .obj [("started_counter",
               .num (started_counter_of
                 (get_peer_data { baseState with peer_relation := some [] } "unit_stats") + 1))] :=
  c8_start_increments { baseState with peer_relation := some [] } [] rfl

/-- Reconciliation never changes the opened-port set, whatever the outcome:
each return or abort path of `_update_layer_and_restart` carries the ports
of the input state. -/
theorem update_preserves_opened_ports (st : CharmState) :
    (finalState (update_layer_and_restart st)).opened_ports = st.opened_ports := by
  cases hcc : st.can_connect with
  | false => simp [update_layer_and_restart, hcc, finalState]
  | true =>
    cases hcore : fetch_core st.db_relations with
    | ok d =>
      rw [update_ok_char st d hcc hcore]
      by_cases hps : st.plan_services = (desired_layer st d).services
      · rw [if_pos hps]; rfl
      · rw [if_neg hps]; rfl
    | error e =>
      cases e with
      | noData =>
        simp [update_layer_and_restart, hcc, pebble_layer, app_environment,
              fetch_postgres_relation_data, hcore, finalState, Exc.state]
      | keyErr =>
        simp [update_layer_and_restart, hcc, pebble_layer, app_environment,
              fetch_postgres_relation_data, hcore, finalState, Exc.state]
      | valErr =>
        simp [update_layer_and_restart, hcc, pebble_layer, app_environment,
              fetch_postgres_relation_data, hcore, finalState, Exc.state]

/-- C10: on a configuration-changed notification with any port other than
22, the port is opened before reconciliation and stays open whatever
reconciliation does; in particular, when Pebble is unreachable the handler
still returns with the port opened and Waiting status. -/
theorem c10_port_opened_before_reconcile (st : CharmState)
    (h22 : st.server_port ≠ 22) :
    (finalState (on_config_changed st)).opened_ports = [st.server_port] ∧
    (st.can_connect = false →
      on_config_changed st =
        .ok { st with
              opened_ports := [st.server_port],
              status := .waiting "Waiting for Pebble in workload container" }) := by
  constructor
  · have h := update_preserves_opened_ports (handle_ports st)
    simp only [on_config_changed, if_neg h22]
    rw [h]
    rfl
  · intro hcf
    simp [on_config_changed, if_neg h22, update_layer_and_restart, handle_ports, hcf]

/-- C10 witness: the statement evaluated at `unreachableState` (port 1234,
Pebble unreachable). -/
theorem c10_port_opened_before_reconcile_witness :
    (finalState (on_config_changed unreachableState)).opened_ports = [1234] ∧
    (unreachableState.can_connect = false →
      on_config_changed unreachableState =
        .ok { unreachableState with
              opened_ports := [1234],
              status := .waiting "Waiting for Pebble in workload container" }) :=
  c10_port_opened_before_reconcile unreachableState (by decide)

end CharmDemo
